import Mathlib

/-!
Verification of the Neural-Inbox ingestion/retrieval engine against its
natural-language specification.  The Python source is shallowly embedded:
pure functions become Lean functions, the database session becomes explicit
state passing over a `DB` value, and fallible constructors return
`Except`/`Option`.  Machine integers are modelled by `Nat`/`Int` (none of the
modelled code relies on overflow).  Instants used by the reminder scheduler
and the confirmation store are modelled as `Int` minutes since the epoch;
calendar datetimes manipulated by the recurrence calculator are modelled by
the `DT` structure below.
-/

/-! ### Calendar arithmetic

`src/db/repository.py` manipulates `datetime` values through
`timedelta(days=...)`, `.weekday()`, `.month`/`.year`/`.day` and
`.replace(...)`.  We model a datetime as a Gregorian date plus a
minute-of-day; `timedelta` day arithmetic never changes the time of day, so
a minute-of-day field is enough.  Day numbering uses the standard civil
calendar <-> epoch-day conversion (days counted from 1970-01-01). -/

structure DT where
  year : Nat
  month : Nat
  day : Nat
  minute : Nat
deriving Repr, DecidableEq

/-- Days from 1970-01-01 for a civil date (standard era/year-of-era form). -/
def daysFromCivil (y m d : Nat) : Int :=
  let y' : Nat := if m ≤ 2 then y - 1 else y
  let era : Nat := y' / 400
  let yoe : Nat := y' % 400
  let mp : Nat := if 2 < m then m - 3 else m + 9
  let doy : Nat := (153 * mp + 2) / 5 + (d - 1)
  let doe : Nat := yoe * 365 + yoe / 4 - yoe / 100 + doy
  (era * 146097 + doe : Int) - 719468

/-- Civil date from days since 1970-01-01 (inverse of `daysFromCivil` on
valid modern dates; total on all of `Int` by clamping the shifted count). -/
def civilFromDays (z : Int) : Nat × Nat × Nat :=
  let zs : Nat := (z + 719468).toNat
  let era : Nat := zs / 146097
  let doe : Nat := zs % 146097
  let yoe : Nat := (doe - doe / 1460 + doe / 36524 - doe / 146096) / 365
  let y0 : Nat := yoe + era * 400
  let doy : Nat := doe - (365 * yoe + yoe / 4 - yoe / 100)
  let mp : Nat := (5 * doy + 2) / 153
  let d : Nat := doy - (153 * mp + 2) / 5 + 1
  let m : Nat := if mp < 10 then mp + 3 else mp - 9
  (if m ≤ 2 then y0 + 1 else y0, m, d)

def DT.toDays (t : DT) : Int := daysFromCivil t.year t.month t.day

/-- Total minutes since the epoch; `datetime` comparison order. -/
def DT.toAbs (t : DT) : Int := 1440 * t.toDays + t.minute

/-- `t + timedelta(days=n)`: the time of day is unchanged. -/
def DT.addDays (t : DT) (n : Int) : DT :=
  let c := civilFromDays (t.toDays + n)
  ⟨c.1, c.2.1, c.2.2, t.minute⟩

/-- Python `datetime.weekday()`: Monday = 0.  1970-01-01 was a Thursday. -/
def DT.weekday (t : DT) : Nat := ((t.toDays + 3).emod 7).toNat

/-- Number of days in a month of the proleptic Gregorian calendar (used only
to state spec claims about "the target month has that day"). -/
def daysInMonth (y m : Nat) : Nat :=
  if m = 2 then (if y % 4 = 0 ∧ (y % 100 ≠ 0 ∨ y % 400 = 0) then 29 else 28)
  else if m = 4 ∨ m = 6 ∨ m = 9 ∨ m = 11 then 30
  else 31

example : DT.toDays ⟨1970, 1, 1, 0⟩ = 0 := by decide
example : DT.toDays ⟨2025, 3, 30, 0⟩ = 20177 := by decide
example : DT.weekday ⟨2025, 3, 30, 0⟩ = 6 := by decide
example : DT.addDays ⟨2025, 2, 27, 90⟩ 2 = ⟨2025, 3, 1, 90⟩ := by decide
example : DT.addDays ⟨2024, 2, 28, 0⟩ 1 = ⟨2024, 2, 29, 0⟩ := by decide
example : DT.addDays ⟨2025, 1, 1, 0⟩ (-1) = ⟨2024, 12, 31, 0⟩ := by decide

/-! ### Recurrence rules and `calculate_next_due_date`
(`src/db/repository.py`, lines 14-92.)

A recurrence rule is a JSON dict with optional keys `type`, `interval`,
`days`, `end_date`.  `end_date` is an ISO string that the Python code parses
with `datetime.fromisoformat` inside a `try`; both parse sites parse the
same stored string, so we embed the key directly as its parse result:
`none` = key absent/falsy, `some none` = present but unparseable (the
`except` branch), `some (some e)` = parses to `e`.  A comparison between the
parsed end date and a due date that raises (aware/naive mix) is inside the
same `try` and is likewise covered by the `some none` case. -/

structure Recurrence where
  rtype : Option String := none
  interval : Option Nat := none
  days : Option (List Nat) := none
  endDate : Option (Option DT) := none
deriving Repr, DecidableEq

/-- Python dict falsiness: `{}` is falsy.  An all-absent rule is empty. -/
def Recurrence.isEmpty (r : Recurrence) : Bool :=
  r.rtype.isNone && r.interval.isNone && r.days.isNone && r.endDate.isNone

/-- Insertion sort on `Nat` (models Python `sorted(days)`). -/
def insertNat (x : Nat) : List Nat → List Nat
  | [] => [x]
  | y :: ys => if x ≤ y then x :: y :: ys else y :: insertNat x ys

def sortNat (l : List Nat) : List Nat := l.foldr insertNat []

example : sortNat [4, 1, 3] = [1, 3, 4] := by decide

/-- `calculate_next_due_date(current_due, recurrence)`. -/
def calculate_next_due_date (currentDue : Option DT) (rec : Option Recurrence) :
    Option DT :=
  match currentDue, rec with
  | some cur, some r =>
    if r.isEmpty then none else
    let recType := r.rtype.getD "daily"
    let interval := r.interval.getD 1
    -- Check end date: `if current_due >= end_date: return None`
    let preCut : Bool := match r.endDate with
      | some (some e) => decide (e.toAbs ≤ cur.toAbs)
      | _ => false
    if preCut then none else
    let nextDue : DT :=
      if recType = "daily" then cur.addDays interval
      else if recType = "weekly" then
        match r.days.getD [] with
        | [] => cur.addDays (7 * (interval : Int))
        | d0 :: drest =>
          let w := cur.weekday
          let sortedDays := sortNat (d0 :: drest)
          match sortedDays.find? (fun d => w < d) with
          | some nd => cur.addDays ((nd : Int) - (w : Int))
          | none =>
            cur.addDays ((7 * (interval : Int)) - (w : Int) +
              ((sortedDays.headD 0 : Nat) : Int))
      else if recType = "monthly" then
        -- month/year via floor arithmetic, day clamped by `min(day, 28)`
        let m0 := cur.month + interval
        let y := cur.year + (m0 - 1) / 12
        let m := (m0 - 1) % 12 + 1
        { cur with year := y, month := m, day := min cur.day 28 }
      else cur
    -- Final check against end date: `if next_due > end_date: return None`
    let postCut : Bool := match r.endDate with
      | some (some e) => decide (e.toAbs < nextDue.toAbs)
      | _ => false
    if postCut then none else some nextDue
  | _, _ => none

example :
    calculate_next_due_date (some ⟨2025, 11, 14, 540⟩)
      (some { rtype := some "daily", interval := some 2 }) =
    some ⟨2025, 11, 16, 540⟩ := by decide

example :
    calculate_next_due_date (some ⟨2025, 1, 31, 0⟩)
      (some { rtype := some "monthly", interval := some 1 }) =
    some ⟨2025, 2, 28, 0⟩ := by decide

example :
    calculate_next_due_date (some ⟨2025, 3, 30, 600⟩)
      (some { rtype := some "monthly", interval := some 1 }) =
    some ⟨2025, 4, 28, 600⟩ := by decide

/-! ### The item store
(`src/db/models.py`, `src/db/repository.py`.)

`Item` collects every item attribute the modelled code reads or writes.

Two facts about the source are load-bearing for the claims and are recorded
here precisely.  First, the declarative ORM model `Item` in
`src/db/models.py` maps only the columns listed in `itemMappedAttrs` below:
in particular it has **no** `recurrence` and **no** `attachment_filename`
attribute, even though `src/db/database.py` adds an `attachment_filename`
column to the table and `ItemRepository.complete` reads `item.recurrence`.
The declarative constructor `Item(**kwargs)` rejects a keyword that is not a
class attribute (modelled by `pyItemNewOk`).  Second, `ItemLink` in
`src/db/models.py` maps no `reason` attribute, though the link-creation code
passes a `reason=` keyword (modelled by `pyItemLinkNewOk`).

Accordingly the Lean `Item` record carries exactly the mapped item-valued
attributes (no `recurrence`, no `attachment_filename`): a persisted item can
never hold a recurrence rule, and reads or constructor keywords touching the
missing attributes are modelled as the errors they raise (`itemComplete`,
`pyItemNewOk`, `pyItemLinkNewOk`). -/

structure Item where
  id : Nat
  userId : Nat
  type : String
  status : String := "inbox"
  title : Option String := none
  content : Option String := none
  originalInput : Option String := none
  source : Option String := none
  dueAt : Option DT := none
  dueAtRaw : Option String := none
  remindAt : Option DT := none
  priority : Option String := none
  projectId : Option Nat := none
  tags : List String := []
  attachmentFileId : Option String := none
  attachmentType : Option String := none
  completedAt : Option DT := none
  createdAt : DT := ⟨2025, 1, 1, 0⟩
deriving Repr, DecidableEq

structure Project where
  id : Nat
  userId : Nat
  name : String
  color : Option String := none
  emoji : Option String := none
deriving Repr, DecidableEq

/-- The relational store: items, projects, and the autoincrement counter. -/
structure DB where
  items : List Item := []
  projects : List Project := []
  nextItemId : Nat := 1
deriving Repr, DecidableEq

/-- Attribute names of the declarative `Item` class in `src/db/models.py`
(mapped columns plus the two relationship attributes).  `recurrence` and
`attachment_filename` are absent: the former is never declared, the latter
exists only as a raw column added by `init_db` in `src/db/database.py`. -/
def itemMappedAttrs : List String :=
  ["id", "user_id", "type", "status", "title", "content", "original_input",
   "source", "due_at", "due_at_raw", "remind_at", "priority", "project_id",
   "tags", "entities", "embedding", "origin_user_name", "attachment_file_id",
   "attachment_type", "created_at", "updated_at", "completed_at",
   "user", "project"]

/-- Attribute names of the declarative `ItemLink` class in
`src/db/models.py`.  There is no `reason` attribute. -/
def itemLinkMappedAttrs : List String :=
  ["id", "item_id", "related_item_id", "link_type", "confidence",
   "confirmed", "created_at"]

/-- SQLAlchemy's declarative constructor: `Item(**kwargs)` raises
`TypeError` iff some keyword is not an attribute of the class. -/
def pyItemNewOk (kwargs : List String) : Bool :=
  kwargs.all (itemMappedAttrs.contains ·)

/-- `ItemLink(**kwargs)` accepts exactly the mapped attribute names. -/
def pyItemLinkNewOk (kwargs : List String) : Bool :=
  kwargs.all (itemLinkMappedAttrs.contains ·)

/-- `ItemRepository.get`: `select(Item).where(Item.id == item_id,
Item.user_id == user_id)`, `scalar_one_or_none`. -/
def itemGet (db : DB) (itemId userId : Nat) : Option Item :=
  db.items.find? (fun it => it.id = itemId && it.userId = userId)

/-- `ItemRepository.complete(item_id, user_id)` as observable through its
callers' `get_session()` transaction (commit on return, roll back on an
exception; both call sites, `PATCH /api/items/{item_id}/complete` and the
bot's complete callback, run inside `get_session()`).

For a missing item the function returns `(None, None)` without writing.
For a found item it first sets `status = 'done'` / `completed_at = now` and
flushes, but then evaluates `item.recurrence` — the declarative `Item`
class maps no such attribute, so the read raises `AttributeError`, the
exception propagates out of `complete`, and `get_session()` rolls the
transaction back: none of the flushed writes survive.  The success path the
spec describes (re-stamp `completed_at`, materialise the next occurrence
via `calculate_next_due_date`) is unreachable in the program as it
stands. -/
def itemComplete (db : DB) (itemId userId : Nat) :
    Except String (DB × Option Item × Option Item) :=
  match itemGet db itemId userId with
  | none => .ok (db, none, none)
  | some _ => .error "AttributeError: Item object has no attribute recurrence"

/-- The item store after a `complete_item` call: the committed state on
success, the rolled-back (original) state when the call raised. -/
def itemCompleteStore (db : DB) (itemId userId : Nat) : DB :=
  match itemComplete db itemId userId with
  | .ok r => r.1
  | .error _ => db

/-! #### Partial updates

`ItemRepository.update` and `ItemRepository.batch_update` set an arbitrary
subset of columns.  `ItemFields` records an assignment per mutable column
that the call sites pass (`none` = column not mentioned); nullable columns
whose call sites can assign SQL NULL carry `Option (Option _)`. -/

structure ItemFields where
  type : Option String := none
  status : Option String := none
  title : Option String := none
  content : Option (Option String) := none
  priority : Option String := none
  projectId : Option (Option Nat) := none
  tags : Option (List String) := none
  dueAt : Option (Option DT) := none
  dueAtRaw : Option (Option String) := none
  remindAt : Option (Option DT) := none
  completedAt : Option (Option DT) := none
deriving Repr, DecidableEq

def applyFields (f : ItemFields) (it : Item) : Item :=
  { it with
    type := f.type.getD it.type
    status := f.status.getD it.status
    title := match f.title with | some t => some t | none => it.title
    content := f.content.getD it.content
    priority := match f.priority with | some p => some p | none => it.priority
    projectId := f.projectId.getD it.projectId
    tags := f.tags.getD it.tags
    dueAt := f.dueAt.getD it.dueAt
    dueAtRaw := f.dueAtRaw.getD it.dueAtRaw
    remindAt := f.remindAt.getD it.remindAt
    completedAt := f.completedAt.getD it.completedAt }

/-- `ItemRepository.batch_update(item_ids, user_id, **kwargs)`:
`UPDATE items SET ... WHERE id IN item_ids AND user_id = user_id`,
returning the row count.  An empty id list updates nothing and returns 0. -/
def batchUpdate (db : DB) (itemIds : List Nat) (userId : Nat)
    (f : ItemFields) : DB × Nat :=
  if itemIds.isEmpty then (db, 0) else
  let touched := fun (it : Item) => itemIds.contains it.id && it.userId = userId
  ({ db with items := db.items.map (fun it => if touched it then applyFields f it else it) },
   (db.items.filter touched).length)

/-- `ItemRepository.batch_delete(item_ids, user_id)`. -/
def batchDelete (db : DB) (itemIds : List Nat) (userId : Nat) : DB × Nat :=
  if itemIds.isEmpty then (db, 0) else
  let touched := fun (it : Item) => itemIds.contains it.id && it.userId = userId
  ({ db with items := db.items.filter (fun it => ! touched it) },
   (db.items.filter touched).length)

/-- `ProjectRepository.move_items(source, target, user)`: moves every item of
the user whose `project_id` equals the source project, by re-resolving the
membership **at call time**. -/
def moveItems (db : DB) (sourceProjectId : Nat) (targetProjectId : Option Nat)
    (userId : Nat) : DB × Nat :=
  let touched := fun (it : Item) =>
    it.projectId = some sourceProjectId && it.userId = userId
  let items' := db.items.map
    (fun it => if touched it then { it with projectId := targetProjectId } else it)
  ({ db with items := items' }, (db.items.filter touched).length)

/-- `ProjectRepository.get_items_count(project_id, user_id)`. -/
def getItemsCount (db : DB) (projectId userId : Nat) : Nat :=
  (db.items.filter (fun it => it.projectId = some projectId && it.userId = userId)).length

/-- `ProjectRepository.delete(project_id, user_id)` plus the
`ondelete="SET NULL"` foreign-key action on `items.project_id`. -/
def projectDelete (db : DB) (projectId userId : Nat) : DB × Bool :=
  let hit := fun (p : Project) => p.id = projectId && p.userId = userId
  if db.projects.any hit then
    let projects' := db.projects.filter (fun p => ! hit p)
    let items' := db.items.map (fun it =>
      if it.projectId = some projectId then { it with projectId := none } else it)
    ({ db with projects := projects', items := items' }, true)
  else (db, false)

/-- `ProjectRepository.get(project_id, user_id)`. -/
def projectGet (db : DB) (projectId userId : Nat) : Option Project :=
  db.projects.find? (fun p => p.id = projectId && p.userId = userId)

/-! ### `ItemRepository.search_advanced`
(`src/db/repository.py`, lines 215-267.)

Conditions are appended only for *truthy* parameters, mirroring Python's
`if type_filter:` checks (so an empty string, a `project_id` of 0 or an
empty tag list add no condition).  `ILIKE '%q%'` is case-insensitive
substring match, false on SQL NULL columns.  Results are ordered by
`created_at` descending and capped at `limit`. -/

def truthyS : Option String → Bool
  | some s => s ≠ ""
  | none => false

def truthyN : Option Nat → Bool
  | some n => n ≠ 0
  | none => false

/-- Case-insensitive substring test on char lists. -/
def subList (hay pat : List Char) : Bool :=
  match hay with
  | [] => pat.isEmpty
  | _ :: t => pat.isPrefixOf hay || subList t pat

/-- `column ILIKE '%query%'` where the column may be NULL. -/
def ilikeMatch (column : Option String) (query : String) : Bool :=
  match column with
  | none => false
  | some s => subList (s.data.map Char.toLower) (query.data.map Char.toLower)

example : ilikeMatch (some "Buy MILK tomorrow") "milk" = true := by decide
example : ilikeMatch none "milk" = false := by decide

structure SearchParams where
  userId : Nat
  query : Option String := none
  typeFilter : Option String := none
  statusFilter : Option String := none
  dateField : Option String := none
  dateFrom : Option DT := none
  dateTo : Option DT := none
  projectId : Option Nat := none
  priority : Option String := none
  tags : Option (List String) := none
  limit : Nat := 10
deriving Repr, DecidableEq

/-- The WHERE clause of `search_advanced` as a predicate on one item. -/
def searchMatches (p : SearchParams) (it : Item) : Bool :=
  (it.userId = p.userId) &&
  (! truthyS p.typeFilter || it.type = p.typeFilter.getD "") &&
  (! truthyS p.statusFilter || it.status = p.statusFilter.getD "") &&
  (! truthyN p.projectId || it.projectId = p.projectId) &&
  (! truthyS p.priority || it.priority = p.priority) &&
  (if truthyS p.dateField && (p.dateFrom.isSome || p.dateTo.isSome) then
    let column := if p.dateField = some "due_at" then it.dueAt else some it.createdAt
    (match p.dateFrom, column with
     | some lo, some c => decide (lo.toAbs ≤ c.toAbs)
     | some _, none => false
     | none, _ => true) &&
    (match p.dateTo, column with
     | some hi, some c => decide (c.toAbs ≤ hi.toAbs)
     | some _, none => false
     | none, _ => true)
   else true) &&
  ((p.tags.getD []).all (fun tg => it.tags.contains tg)) &&
  (! truthyS p.query ||
    (ilikeMatch it.title (p.query.getD "") ||
     ilikeMatch it.content (p.query.getD "") ||
     ilikeMatch it.originalInput (p.query.getD "")))

/-- Insertion sort by `created_at` descending (`order_by(created_at.desc())`). -/
def insertCreatedDesc (it : Item) : List Item → List Item
  | [] => [it]
  | j :: js =>
    if it.createdAt.toAbs ≤ j.createdAt.toAbs then j :: insertCreatedDesc it js
    else it :: j :: js

def sortCreatedDesc (l : List Item) : List Item := l.foldr insertCreatedDesc []

def searchAdvanced (db : DB) (p : SearchParams) : List Item :=
  (sortCreatedDesc (db.items.filter (searchMatches p))).take p.limit

/-! ### Tool filter parsing
(`src/ai/tools.py`, `_resolve_project_id` / `_parse_filter_params`.)

The raw tool `filter` dict.  `date_from`/`date_to` are ISO strings parsed
with `fromisoformat` inside `try` blocks (`some none` = present but
unparseable, in which case the parameter is silently dropped); `project` is
a name or an id. -/

inductive ProjRef where
  | byInt (n : Nat)
  | byStr (s : String)
deriving Repr, DecidableEq

structure FilterDict where
  query : Option String := none
  type : Option String := none
  status : Option String := none
  dateField : Option String := none
  dateFrom : Option (Option DT) := none
  dateTo : Option (Option DT) := none
  project : Option ProjRef := none
  priority : Option String := none
  tags : Option (List String) := none
  limit : Option Nat := none
deriving Repr, DecidableEq

/-- Python truthiness of the `project` filter value. -/
def truthyProj : Option ProjRef → Bool
  | none => false
  | some (.byInt n) => n ≠ 0
  | some (.byStr s) => s ≠ ""

/-- `_resolve_project_id`: ints pass through, digit strings are converted,
other strings are looked up by name among the user's projects. -/
def resolveProjectId (db : DB) (userId : Nat) : Option ProjRef → Option Nat
  | none => none
  | some (.byInt n) => some n
  | some (.byStr s) =>
    if s ≠ "" && s.data.all Char.isDigit then s.toNat?
    else (db.projects.find? (fun p => p.name = s && p.userId = userId)).map (·.id)

/-- `_parse_filter_params` (limit defaults to 100 for batch operations). -/
def parseFilterParams (db : DB) (f : FilterDict) (userId : Nat) : SearchParams :=
  { userId := userId
    query := f.query
    typeFilter := f.type
    statusFilter := f.status
    dateField := f.dateField
    priority := f.priority
    tags := f.tags
    limit := f.limit.getD 100
    dateFrom := match f.dateFrom with | some (some d) => some d | _ => none
    dateTo := match f.dateTo with | some (some d) => some d | _ => none
    projectId := if truthyProj f.project then resolveProjectId db userId f.project else none }

/-! ### Confirmation store
(`src/ai/batch_confirmations.py`.)

Times here are `Int` minutes (`datetime.utcnow()`); the TTL is 5 minutes. -/

/-- The `updates` dict of `batch_update_items` (`src/ai/tools.py`): keys
`status`, `priority`, `project_id`, `tags`, `due_at`, `due_at_raw`.
`due_at` is an ISO string; `some none` models a present but unparseable
value (the executor then silently drops the key). -/
structure Updates where
  status : Option String := none
  priority : Option String := none
  projectId : Option Nat := none
  tags : Option (List String) := none
  dueAt : Option (Option DT) := none
  dueAtRaw : Option String := none
deriving Repr, DecidableEq

def Updates.isEmpty (u : Updates) : Bool :=
  u.status.isNone && u.priority.isNone && u.projectId.isNone &&
  u.tags.isNone && u.dueAt.isNone && u.dueAtRaw.isNone

structure PendingOperation where
  token : String
  action : String
  userId : Nat
  filter : FilterDict
  updates : Option Updates := none
  matchedIds : List Nat
  createdAt : Int
deriving Repr, DecidableEq

def PendingOperation.isExpired (op : PendingOperation) (now : Int) : Bool :=
  decide (op.createdAt + 5 < now)

abbrev ConfirmStore := List (String × PendingOperation)

/-- `get_pending(token)`: the stored operation if present and unexpired. -/
def getPending (store : ConfirmStore) (token : String) (now : Int) :
    Option PendingOperation :=
  match store.lookup token with
  | some op => if ! op.isExpired now then some op else none
  | none => none

/-- `clear_pending(token)`. -/
def clearPending (store : ConfirmStore) (token : String) : ConfirmStore :=
  store.filter (fun kv => kv.1 ≠ token)

/-- `_cleanup_expired()`. -/
def cleanupExpired (store : ConfirmStore) (now : Int) : ConfirmStore :=
  store.filter (fun kv => ! kv.2.isExpired now)

/-- `store_pending(operation)`: lazy GC, then `dict[token] = op`. -/
def storePending (store : ConfirmStore) (op : PendingOperation) (now : Int) :
    ConfirmStore :=
  ((cleanupExpired store now).filter (fun kv => kv.1 ≠ op.token)) ++ [(op.token, op)]

/-! ### Tool executors with two-phase confirmation
(`src/ai/tools.py`.)

Each executor is modelled as a state transformer over `(DB, ConfirmStore)`.
`freshTok` stands for the nondeterministic `generate_token(...)` value used
when the call takes the preview branch.  `confirmed and token` follows
Python truthiness (an absent or empty token falls through to preview). -/

inductive ToolResult where
  | error (msg : String)
  | updated (count : Nat)
  | deleted (count : Nat)
  | moved (count : Nat)
  | projectDeleted (success : Bool)
  | preview (action : String) (matchedCount : Nat) (token : String)
  | previewEmpty
deriving Repr, DecidableEq

/-- The `update_values` dict built by `execute_batch_update_items` from the
`updates` argument: key-presence checks, with an unparseable `due_at`
silently dropped.  `completed_at` is never among the assigned columns. -/
def updatesToFields (u : Updates) : ItemFields :=
  { status := u.status
    priority := u.priority
    projectId := u.projectId.map some
    tags := u.tags
    dueAt := match u.dueAt with | some (some d) => some (some d) | _ => none
    dueAtRaw := u.dueAtRaw.map some }

/-- `execute_batch_update_items(user_id, params)`. -/
def executeBatchUpdateItems (db : DB) (store : ConfirmStore) (now : Int)
    (userId : Nat) (filt : FilterDict) (updates : Updates) (confirmed : Bool)
    (token : Option String) (freshTok : String) :
    DB × ConfirmStore × ToolResult :=
  if updates.isEmpty then (db, store, .error "updates is required") else
  if confirmed && truthyS token then
    let tok := token.getD ""
    match getPending store tok now with
    | none => (db, store, .error "Confirmation token expired or invalid")
    | some pending =>
      if pending.userId ≠ userId then
        (db, store, .error "Invalid token for this user")
      else
        let r := batchUpdate db pending.matchedIds userId (updatesToFields updates)
        (r.1, clearPending store tok, .updated r.2)
  else
    let items := searchAdvanced db (parseFilterParams db filt userId)
    if items.isEmpty then (db, store, .previewEmpty)
    else
      let op : PendingOperation :=
        { token := freshTok, action := "update", userId := userId,
          filter := filt, updates := some updates,
          matchedIds := items.map (·.id), createdAt := now }
      (db, storePending store op now, .preview "update" items.length freshTok)

/-- `execute_batch_delete_items(user_id, params)`. -/
def executeBatchDeleteItems (db : DB) (store : ConfirmStore) (now : Int)
    (userId : Nat) (filt : FilterDict) (confirmed : Bool)
    (token : Option String) (freshTok : String) :
    DB × ConfirmStore × ToolResult :=
  if confirmed && truthyS token then
    let tok := token.getD ""
    match getPending store tok now with
    | none => (db, store, .error "Confirmation token expired or invalid")
    | some pending =>
      if pending.userId ≠ userId then
        (db, store, .error "Invalid token for this user")
      else
        let r := batchDelete db pending.matchedIds userId
        (r.1, clearPending store tok, .deleted r.2)
  else
    let items := searchAdvanced db (parseFilterParams db filt userId)
    if items.isEmpty then (db, store, .previewEmpty)
    else
      let op : PendingOperation :=
        { token := freshTok, action := "delete", userId := userId,
          filter := filt, matchedIds := items.map (·.id), createdAt := now }
      (db, storePending store op now, .preview "delete" items.length freshTok)

/-- The `action == "delete"` branch of `execute_manage_projects`.  Note that
phase B deletes the **parameter** `project_id`, not the stored
`pending.matched_ids`. -/
def executeManageProjectsDelete (db : DB) (store : ConfirmStore) (now : Int)
    (userId : Nat) (projectId : Option Nat) (confirmed : Bool)
    (token : Option String) (freshTok : String) :
    DB × ConfirmStore × ToolResult :=
  if ! truthyN projectId then
    (db, store, .error "project_id is required for delete")
  else
    let pid := projectId.getD 0
    if confirmed && truthyS token then
      let tok := token.getD ""
      match getPending store tok now with
      | none => (db, store, .error "Confirmation token expired or invalid")
      | some pending =>
        if pending.userId ≠ userId then
          (db, store, .error "Invalid token for this user")
        else
          let r := projectDelete db pid userId
          (r.1, clearPending store tok, .projectDeleted r.2)
    else
      match projectGet db pid userId with
      | none => (db, store, .error "Project not found")
      | some _ =>
        let op : PendingOperation :=
          { token := freshTok, action := "delete_project", userId := userId,
            filter := { project := some (.byInt pid) },
            matchedIds := [pid], createdAt := now }
        (db, storePending store op now,
         .preview "delete_project" (getItemsCount db pid userId) freshTok)

/-- The `action == "move_items"` branch of `execute_manage_projects`.  The
preview stores `matched_ids = []` ("Not tracking individual items here");
phase B calls `ProjectRepository.move_items` on the **parameters**
`project_id` / `target_project_id`, re-resolving the membership against the
store's current state. -/
def executeManageProjectsMove (db : DB) (store : ConfirmStore) (now : Int)
    (userId : Nat) (projectId : Option Nat) (targetProjectId : Option Nat)
    (confirmed : Bool) (token : Option String) (freshTok : String) :
    DB × ConfirmStore × ToolResult :=
  if ! truthyN projectId then
    (db, store, .error "project_id is required for move_items")
  else
    let pid := projectId.getD 0
    if confirmed && truthyS token then
      let tok := token.getD ""
      match getPending store tok now with
      | none => (db, store, .error "Confirmation token expired or invalid")
      | some pending =>
        if pending.userId ≠ userId then
          (db, store, .error "Invalid token for this user")
        else
          let r := moveItems db pid targetProjectId userId
          (r.1, clearPending store tok, .moved r.2)
    else
      let cnt := getItemsCount db pid userId
      if cnt = 0 then (db, store, .previewEmpty)
      else
        let op : PendingOperation :=
          { token := freshTok, action := "move_items", userId := userId,
            filter := { project := some (.byInt pid) },
            matchedIds := [], createdAt := now }
        (db, storePending store op now, .preview "move_items" cnt freshTok)

/-! ### Reminder scheduler
(`src/bot/jobs/reminders.py`.)

The scheduler compares instants only (no calendar access), so items are
viewed here through `RItem` with `Int`-minute instants.  One tick runs at a
single instant `now`; the selection window is `[now - 5 min, now + 1 min]`
and the post-notification sentinel is `now - 1 day = now - 1440 min`.
`_send_reminder` catches every exception internally (including a failing
transport send), so the tick marks each selected item regardless of the
send outcome. -/

structure RItem where
  id : Nat
  userId : Nat
  status : String
  remindAt : Option Int := none
  dueAt : Option Int := none
  type : String := "task"
deriving Repr, DecidableEq

/-- The WHERE clause of `_get_due_items` on one item. -/
def dueSelect (it : RItem) (now : Int) : Bool :=
  (it.status = "inbox" || it.status = "active") &&
  (match it.remindAt with
   | some r => decide (now - 5 ≤ r) && decide (r ≤ now + 1)
   | none =>
     match it.dueAt with
     | some d => decide (now - 5 ≤ d) && decide (d ≤ now + 1)
     | none => false)

/-- `_mark_reminded`: `item.remind_at = now - timedelta(days=1)`. -/
def markReminded (it : RItem) (now : Int) : RItem :=
  { it with remindAt := some (now - 1440) }

/-- The items component of one `_check_reminders` tick: every selected item
is marked, the rest are untouched.  This does not depend on whether the
notification sends succeeded. -/
def reminderTickItems (db : List RItem) (now : Int) : List RItem :=
  db.map (fun it => if dueSelect it now then markReminded it now else it)

/-- `Except.ok`-ness of a transport send (`bot.send_message` either returns
or raises). -/
def sendOk : Except String Unit → Bool
  | .ok _ => true
  | .error _ => false

/-- One `_check_reminders` tick: the updated items plus the send log
`(item id, delivered?)`.  `sendOutcome` models the transport; a raising
send is swallowed inside `_send_reminder` and the item is still marked. -/
def checkReminders (db : List RItem) (now : Int)
    (sendOutcome : RItem → Except String Unit) :
    List RItem × List (Nat × Bool) :=
  (reminderTickItems db now,
   (db.filter (fun it => dueSelect it now)).map
     (fun it => (it.id, sendOk (sendOutcome it))))

/-! ### Hybrid search engine
(`src/db/search.py`.)

Each search path issues one SQL query; `SearchEnv` carries the outcome of
each query (`Except` models a raising database call) together with the
embedding-service result for the query text.  Row values (including the
scores computed inside SQL) are carried through abstractly; only the
control flow between the paths is at issue in the claims. -/

structure SRow where
  id : Nat
  title : Option String := none
  content : Option String := none
  type : String := "note"
  score : Int := 0
  ftsScore : Int := 0
  vectorScore : Int := 0
deriving Repr, DecidableEq

structure SearchResultR where
  id : Nat
  title : String
  content : Option String
  type : String
  score : Int
  ftsScore : Int
  vectorScore : Int
deriving Repr, DecidableEq

structure SearchEnv where
  emb : Option (List Int) := none
  hybridQ : Except String (List SRow) := .ok []
  ftsQ : Except String (List SRow) := .ok []
  ilikeQ : Except String (List SRow) := .ok []
  vectorQ : Except String (List SRow) := .ok []
  findSimQ : Except String (List SRow) := .ok []
deriving Repr

/-- `fts_search`: rows mapped with `fts_score = score`, `vector_score = 0`;
a database error is swallowed into `[]`. -/
def ftsSearch (env : SearchEnv) : List SearchResultR :=
  match env.ftsQ with
  | .error _ => []
  | .ok rows => rows.map (fun r =>
      { id := r.id, title := r.title.getD "", content := r.content,
        type := r.type, score := r.score, ftsScore := r.score,
        vectorScore := 0 })

/-- `ilike_search`: a database error is swallowed into `[]`. -/
def ilikeSearch (env : SearchEnv) : List SearchResultR :=
  match env.ilikeQ with
  | .error _ => []
  | .ok rows => rows.map (fun r =>
      { id := r.id, title := r.title.getD "", content := r.content,
        type := r.type, score := r.score, ftsScore := 0, vectorScore := 0 })

/-- `vector_search`: no embedding means `[]`; a database error is swallowed
into `[]`. -/
def vectorSearch (env : SearchEnv) : List SearchResultR :=
  match env.emb with
  | none => []
  | some _ =>
    match env.vectorQ with
    | .error _ => []
    | .ok rows => rows.map (fun r =>
        { id := r.id, title := r.title.getD "", content := r.content,
          type := r.type, score := r.score, ftsScore := 0,
          vectorScore := r.score })

/-- `find_similar`: a database error is swallowed into `[]`. -/
def findSimilar (env : SearchEnv) : List SearchResultR :=
  match env.findSimQ with
  | .error _ => []
  | .ok rows => rows.map (fun r =>
      { id := r.id, title := r.title.getD "", content := r.content,
        type := r.type, score := r.score, ftsScore := 0,
        vectorScore := r.score })

/-- Python `str.split()` word count (whitespace-separated tokens;
whitespace modelled as the space character). -/
def countWordsAux : List Char → Bool → Nat
  | [], _ => 0
  | c :: cs, inWord =>
    if c = ' ' then countWordsAux cs false
    else (if inWord then 0 else 1) + countWordsAux cs true

def wordCount (q : String) : Nat := countWordsAux q.data false

example : wordCount "buy milk now" = 3 := by decide

/-- `not query or not query.strip()`: empty or all-whitespace. -/
def strBlank (q : String) : Bool := q.data.all (fun c => c = ' ')

/-- `hybrid_search`: empty/blank query gives `[]`; with no embedding it
degrades to FTS-only; on a **database error it falls back to `fts_search`**
(it does not return `[]`); on success with zero rows and a short query it
falls back to `ilike_search`. -/
def hybridSearch (env : SearchEnv) (query : String) : List SearchResultR :=
  if strBlank query then []
  else
    match env.emb with
    | none => ftsSearch env
    | some _ =>
      match env.hybridQ with
      | .error _ => ftsSearch env
      | .ok rows =>
        let results := rows.map (fun r =>
          { id := r.id, title := r.title.getD "", content := r.content,
            type := r.type, score := r.score, ftsScore := r.ftsScore,
            vectorScore := r.vectorScore : SearchResultR })
        if results.isEmpty && wordCount query ≤ 3 then ilikeSearch env
        else results

/-! ### Agent persistence stage
(`src/ai/agent.py`, `IntelligentAgent._persist_items`.)

For every extracted item the stage builds a keyword dict for
`ItemRepository.create`, which forwards it to the declarative constructor
`Item(**kwargs)`; an invalid keyword raises `TypeError`, which
`_persist_items` catches, logging and skipping that item.  When the inbound
message carried an attachment (`metadata` truthy), the keyword dict always
contains the three keys `attachment_file_id`, `attachment_type`,
`attachment_filename` — the last of which is not an `Item` attribute. -/

structure AgentItemData where
  type : Option String := none
  title : Option String := none
  content : Option String := none
  dueAtIso : Option (Option DT) := none
  dueAtRaw : Option String := none
  priority : Option String := none
  tags : Option (List String) := none
  projectId : Option Nat := none
deriving Repr, DecidableEq

structure AttachMeta where
  attachmentFileId : Option String := none
  attachmentType : Option String := none
  attachmentFilename : Option String := none
deriving Repr, DecidableEq

/-- The record `_persist_items` intends to store for one extracted item. -/
structure PersistedItem where
  userId : Nat
  type : String
  status : String
  title : String
  content : String
  originalInput : String
  source : String
  dueAt : Option DT
  dueAtRaw : Option String
  priority : Option String
  tags : List String
  projectId : Option Nat
  attachmentFileId : Option String
  attachmentType : Option String
  attachmentFilename : Option String
deriving Repr, DecidableEq

/-- The keyword names passed to `Item(**kwargs)` for one agent item:
the named parameters of `ItemRepository.create` plus, when `metadata` is
truthy, the three inherited attachment keys. -/
def persistKwargKeys (metadata : Option AttachMeta) : List String :=
  ["user_id", "type", "status", "title", "content", "original_input",
   "source", "due_at", "due_at_raw", "priority", "tags", "entities",
   "project_id"] ++
  (match metadata with
   | some _ => ["attachment_file_id", "attachment_type", "attachment_filename"]
   | none => [])

/-- `IntelligentAgent._persist_items(user_id, original_text, source,
items_data, metadata)`: per-item creation with defaulting; any exception on
one item (in particular the `TypeError` from an invalid constructor
keyword) is caught and the item skipped. -/
def persistItems (userId : Nat) (originalText source : String)
    (itemsData : List AgentItemData) (metadata : Option AttachMeta) :
    List PersistedItem :=
  itemsData.filterMap (fun d =>
    if pyItemNewOk (persistKwargKeys metadata) then
      let contentRaw := d.content.getD ""
      some
        { userId := userId
          type := d.type.getD "note"
          status := "inbox"
          title := d.title.getD (String.mk (originalText.data.take 100))
          content := if contentRaw = "" then originalText else contentRaw
          originalInput := originalText
          source := source
          dueAt := match d.dueAtIso with | some (some t) => some t | _ => none
          dueAtRaw := d.dueAtRaw
          priority := d.priority
          tags := d.tags.getD []
          projectId := d.projectId
          attachmentFileId := (metadata.map (·.attachmentFileId)).join
          attachmentType := (metadata.map (·.attachmentType)).join
          attachmentFilename := (metadata.map (·.attachmentFilename)).join }
    else none)

/-! ### Linking stage
(`src/ai/linker.py` and `ItemLinkRepository.create_batch`.)

`create_links_batch` validates each suggestion (index in range, truthy
`existing_item_id`), collects the link dicts, and calls
`create_batch`, which constructs `ItemLink(..., reason=...)` for each dict.
`reason` is not an `ItemLink` attribute, so the first construction raises
`TypeError`; the outer `except` in `create_links_batch` swallows it and
returns `[]`. -/

structure LinkSuggestion where
  newItemIndex : Option Int := none
  existingItemId : Option Int := none
  reason : Option String := none
deriving Repr, DecidableEq

structure LinkData where
  itemId : Nat
  relatedItemId : Int
  reason : Option String
  linkType : String
deriving Repr, DecidableEq

/-- The validation loop of `create_links_batch`: skip suggestions whose
index is out of range or whose `existing_item_id` is falsy; truncate the
reason to 200 characters (empty reason becomes NULL).  No check relates
`existing_item_id` to the source item's user. -/
def suggestionsToLinks (createdItems : List Item)
    (suggestions : List LinkSuggestion) : List LinkData :=
  suggestions.filterMap (fun s =>
    let idx := s.newItemIndex.getD 0
    if idx < 0 || (createdItems.length : Int) ≤ idx then none
    else
      match s.existingItemId with
      | none => none
      | some eid =>
        if eid = 0 then none
        else
          match createdItems.get? idx.toNat with
          | none => none
          | some newItem =>
            let reason := s.reason.getD ""
            some { itemId := newItem.id, relatedItemId := eid,
                   reason := if reason = "" then none
                             else some (String.mk (reason.data.take 200)),
                   linkType := "related" })

/-- The keyword names passed to `ItemLink(**kwargs)` by
`ItemLinkRepository.create_batch` for every link dict. -/
def linkKwargKeys : List String :=
  ["item_id", "related_item_id", "link_type", "reason", "confidence",
   "confirmed"]

/-- `ItemLinkRepository.create_batch(links)`: constructs every `ItemLink`;
any invalid constructor keyword raises out of the whole call. -/
def linkCreateBatch (links : List LinkData) : Except String (List LinkData) :=
  if links.all (fun _ => pyItemLinkNewOk linkKwargKeys) && links ≠ [] then
    .ok links
  else if links = [] then .ok []
  else .error "TypeError"

/-- `create_links_batch(session, created_items, suggested_links)`. -/
def createLinksBatch (createdItems : List Item)
    (suggestions : List LinkSuggestion) : List LinkData :=
  if suggestions.isEmpty || createdItems.isEmpty then []
  else
    let linksToCreate := suggestionsToLinks createdItems suggestions
    if linksToCreate.isEmpty then []
    else
      match linkCreateBatch linksToCreate with
      | .ok created => created
      | .error _ => []

/-! ### Single-item update
(`ItemRepository.update` plus `PATCH /api/items/{id}`,
`src/api/routes/items.py` / `src/api/schemas.py`.)

`ItemRepository.update` does `setattr(item, key, value)` for each provided
key, guarded by `hasattr(item, key)`; a key that is not an attribute of the
ORM class (such as `recurrence` from `ItemUpdate`) is silently dropped. -/

def itemUpdate (db : DB) (itemId userId : Nat) (f : ItemFields) :
    DB × Option Item :=
  match itemGet db itemId userId with
  | none => (db, none)
  | some it =>
    let it' := applyFields f it
    let items' := db.items.map
      (fun j => if j.id = itemId && j.userId = userId then it' else j)
    ({ db with items := items' }, some it')

/-- The `ItemUpdate` DTO (partial update; `none` = field not sent). -/
structure ApiItemUpdate where
  title : Option String := none
  content : Option String := none
  type : Option String := none
  status : Option String := none
  dueAt : Option DT := none
  dueAtRaw : Option String := none
  tags : Option (List String) := none
  projectId : Option Nat := none
  priority : Option String := none
  recurrence : Option (Option Recurrence) := none
deriving Repr, DecidableEq

/-- Keys forwarded by the PATCH route to `ItemRepository.update`.  The
`recurrence` key fails the `hasattr` check (the ORM maps no such column)
and is dropped; `completed_at` is not part of the DTO at all. -/
def apiUpdateToFields (u : ApiItemUpdate) : ItemFields :=
  { title := u.title
    content := u.content.map some
    type := u.type
    status := u.status
    dueAt := u.dueAt.map some
    dueAtRaw := u.dueAtRaw.map some
    tags := u.tags
    projectId := u.projectId.map some
    priority := u.priority }

/-- `PATCH /api/items/{item_id}` body semantics. -/
def apiUpdateItem (db : DB) (itemId userId : Nat) (u : ApiItemUpdate) :
    DB × Option Item :=
  itemUpdate db itemId userId (apiUpdateToFields u)

/-! ## Claims -/

/-! ### C2 — monthly recurrence day clamping -/

/-- C2 (counterexample).  2025-03-30 plus one month: April has 30 days, so
per the claim the day of month should be kept at 30; the code returns
April 28 (it clamps with `min(day, 28)` unconditionally). -/
theorem c2_counterexample :
    calculate_next_due_date (some ⟨2025, 3, 30, 600⟩)
      (some { rtype := some "monthly", interval := some 1 }) =
      some ⟨2025, 4, 28, 600⟩
    ∧ daysInMonth 2025 4 = 30
    ∧ (⟨2025, 4, 28, 600⟩ : DT) ≠ ⟨2025, 4, 30, 600⟩ := by decide

/-- C2 (amended).  For a monthly rule of interval `n` with no end date, the
next occurrence is `n` months later with the day of month **always**
clamped to `min(day, 28)` (not only when the source day does not exist in
the target month); consequently any date whose day is already ≤ 28 is a
fixed point of the clamping, so further steps from a clamped value keep the
same day of month. -/
theorem c2_monthly_unconditional_clamp
    (cur : DT) (r : Recurrence) (n : Nat)
    (hty : r.rtype = some "monthly") (hint : r.interval = some n)
    (hend : r.endDate = none) :
    calculate_next_due_date (some cur) (some r) =
      some { cur with
             year := cur.year + (cur.month + n - 1) / 12
             month := (cur.month + n - 1) % 12 + 1
             day := min cur.day 28 }
    ∧ ∀ cur2 : DT, cur2.day ≤ 28 →
        calculate_next_due_date (some cur2) (some r) =
          some { cur2 with
                 year := cur2.year + (cur2.month + n - 1) / 12
                 month := (cur2.month + n - 1) % 12 + 1
                 day := cur2.day } := by
  constructor
  · simp [calculate_next_due_date, Recurrence.isEmpty, hty, hint, hend]
  · intro cur2 h2
    have hmin : min cur2.day 28 = cur2.day := Nat.min_eq_left h2
    simp [calculate_next_due_date, Recurrence.isEmpty, hty, hint, hend, hmin]

/-- C2 (witness for the amended theorem): 2025-01-31, monthly interval 1,
lands on 2025-02-28, and stepping again from the clamped value keeps the
day at 28. -/
theorem c2_monthly_unconditional_clamp_witness :
    calculate_next_due_date (some ⟨2025, 1, 31, 0⟩)
      (some { rtype := some "monthly", interval := some 1 }) =
      some ⟨2025, 2, 28, 0⟩
    ∧ calculate_next_due_date (some ⟨2025, 2, 28, 0⟩)
        (some { rtype := some "monthly", interval := some 1 }) =
      some ⟨2025, 3, 28, 0⟩ := by
  have h := c2_monthly_unconditional_clamp ⟨2025, 1, 31, 0⟩
    { rtype := some "monthly", interval := some 1 } 1 rfl rfl rfl
  exact ⟨h.1, h.2 ⟨2025, 2, 28, 0⟩ (by decide)⟩

/-! ### C1 — completion of an already-done item -/

/-- The claim's scenario: a task that is already `done` (with an old
`completed_at`) and a due date.  No recurrence rule can appear on it: the
ORM model carries no such attribute. -/
def c1Item : Item :=
  { id := 1, userId := 7, type := "task", status := "done",
    dueAt := some ⟨2025, 11, 14, 540⟩,
    completedAt := some ⟨2025, 11, 10, 0⟩, createdAt := ⟨2025, 11, 1, 0⟩ }

def c1DB : DB := { items := [c1Item], nextItemId := 2 }

/-- C1 (divergence).  `complete_item` is inert for every found item: the
declarative `Item` class maps no `recurrence` attribute, so `complete()`
raises `AttributeError` at `if item.recurrence:` and the enclosing
`get_session()` rolls back — the item store afterwards equals the store
before.  At the claim's own scenario (an already-`done` item, `c1DB`) the
call neither re-stamps `completed_at` nor creates a next occurrence, but
not because of any `!done → done` gating: no completion — first or
repeated — can ever run to the end, so the claimed no-op-plus-gated-
materialisation contract never gets to execute at all. -/
theorem c1_complete_raises_for_every_found_item
    (db : DB) (itemId userId : Nat)
    (hfound : (itemGet db itemId userId).isSome = true) :
    itemComplete db itemId userId =
      .error "AttributeError: Item object has no attribute recurrence"
    ∧ itemCompleteStore db itemId userId = db
    ∧ itemMappedAttrs.contains "recurrence" = false := by
  refine ⟨?_, ?_, by decide⟩
  · unfold itemComplete
    cases hget : itemGet db itemId userId with
    | none => rw [hget] at hfound; exact absurd hfound (by decide)
    | some it => rfl
  · unfold itemCompleteStore itemComplete
    cases itemGet db itemId userId <;> rfl

/-- C1 (witness), instantiated at the already-`done` item of `c1DB`. -/
theorem c1_complete_raises_witness :
    (itemGet c1DB 1 7).isSome = true
    ∧ (itemComplete c1DB 1 7 =
        .error "AttributeError: Item object has no attribute recurrence"
       ∧ itemCompleteStore c1DB 1 7 = c1DB
       ∧ itemMappedAttrs.contains "recurrence" = false) :=
  ⟨by decide, c1_complete_raises_for_every_found_item c1DB 1 7 (by decide)⟩

/-! ### C3 — `status = 'done'` implies `completed_at` set -/

/-- The invariant of the claim, as a decidable predicate on an item list. -/
def invDoneCompleted (items : List Item) : Bool :=
  items.all (fun it => !(it.status == "done") || it.completedAt.isSome)

def c3Item : Item :=
  { id := 1, userId := 5, type := "task", status := "inbox",
    createdAt := ⟨2025, 1, 2, 0⟩ }

def c3DB : DB := { items := [c3Item], nextItemId := 2 }

def c3Pending : PendingOperation :=
  { token := "upd_T", action := "update", userId := 5, filter := {},
    updates := some { status := some "done" }, matchedIds := [1],
    createdAt := 0 }

/-- C3 (counterexample).  Phase-B batch update with `updates =
{status: "done"}` through a valid confirmation token marks the item `done`
but leaves `completed_at` NULL: the persisted store violates the
invariant. -/
theorem c3_counterexample :
    (executeBatchUpdateItems c3DB [("upd_T", c3Pending)] 1 5 {}
        { status := some "done" } true (some "upd_T") "unused").2.2 =
      .updated 1
    ∧ (itemGet (executeBatchUpdateItems c3DB [("upd_T", c3Pending)] 1 5 {}
        { status := some "done" } true (some "upd_T") "unused").1 1 5).map
        Item.status = some "done"
    ∧ (itemGet (executeBatchUpdateItems c3DB [("upd_T", c3Pending)] 1 5 {}
        { status := some "done" } true (some "upd_T") "unused").1 1 5).map
        Item.completedAt = some none
    ∧ invDoneCompleted (executeBatchUpdateItems c3DB [("upd_T", c3Pending)] 1 5 {}
        { status := some "done" } true (some "upd_T") "unused").1.items = false := by
  decide

lemma applyFields_completedAt (f : ItemFields) (hf : f.completedAt = none)
    (it : Item) : (applyFields f it).completedAt = it.completedAt := by
  simp [applyFields, hf]

/-- C3 (amended).  No write path maintains the claimed invariant.
`complete_item` is inert at runtime: for every found item it raises
`AttributeError` at the unmapped `item.recurrence` read and the enclosing
transaction rolls back, so the item store after the call equals the store
before (the call neither establishes nor violates the invariant — it sets
nothing).  The batch-update path and the single-item PATCH path never
assign `completed_at` (the `updates` dict and the `ItemUpdate` DTO have no
such key), leaving every item's `completed_at` exactly as it was — so
setting `status = 'done'` through either of them on an item with NULL
`completed_at` persists a violating item. -/
theorem c3_invariant_not_maintained_by_updates
    (db : DB) (itemId userId itemId2 : Nat) (ids : List Nat)
    (u : Updates) (au : ApiItemUpdate) :
    itemCompleteStore db itemId userId = db
    ∧ invDoneCompleted (itemCompleteStore db itemId userId).items =
        invDoneCompleted db.items
    ∧ (updatesToFields u).completedAt = none
    ∧ (batchUpdate db ids userId (updatesToFields u)).1.items.map
        Item.completedAt = db.items.map Item.completedAt
    ∧ (apiUpdateItem db itemId2 userId au).2.map Item.completedAt =
        (itemGet db itemId2 userId).map Item.completedAt := by
  have hstore : itemCompleteStore db itemId userId = db := by
    unfold itemCompleteStore itemComplete
    cases itemGet db itemId userId <;> rfl
  refine ⟨hstore, by rw [hstore], rfl, ?_, ?_⟩
  · unfold batchUpdate
    split
    · rfl
    · dsimp only
      rw [List.map_map]
      apply List.map_congr_left
      intro a _
      simp only [Function.comp_apply]
      split
      · exact applyFields_completedAt (updatesToFields u) rfl a
      · rfl
  · unfold apiUpdateItem itemUpdate
    cases hget : itemGet db itemId2 userId with
    | none => rfl
    | some it =>
      simp only [Option.map_some']
      rw [applyFields_completedAt (apiUpdateToFields au) rfl it]

/-! ### C4 / C5 — phase-B execution and token consumption -/

lemma lookup_clearPending (store : ConfirmStore) (tok : String) :
    (clearPending store tok).lookup tok = none := by
  induction store with
  | nil => rfl
  | cons kv rest ih =>
    rcases kv with ⟨k, v⟩
    by_cases h : k = tok
    · simpa [clearPending, List.filter_cons, h] using ih
    · have hbe : (tok == k) = false := beq_eq_false_iff_ne.mpr (Ne.symm h)
      simpa [clearPending, List.filter_cons, h, List.lookup, hbe] using ih

lemma getPending_clearPending (store : ConfirmStore) (tok : String)
    (now : Int) : getPending (clearPending store tok) tok now = none := by
  simp [getPending, lookup_clearPending]

/-- C4 (amended).  With a valid unexpired token owned by the caller:
batch update and batch delete apply the operation to exactly the stored
`matched_ids` (the `filter` argument and the store's current state play no
role), while project delete applies the phase-B `project_id` parameter and
`move_items` re-resolves the source project's current membership at
execution time — neither consults the stored `matched_ids`. -/
theorem c4_phaseB_applies_stored_ids_only_for_batch_ops
    (db : DB) (store : ConfirmStore) (now : Int) (userId : Nat)
    (filt : FilterDict) (u : Updates) (tok : String) (p : PendingOperation)
    (fresh : String) (pid : Nat) (tgt : Option Nat)
    (htok : tok ≠ "") (hu : u.isEmpty = false) (hpid : pid ≠ 0)
    (hlook : store.lookup tok = some p)
    (hexp : p.isExpired now = false)
    (huser : p.userId = userId) :
    executeBatchUpdateItems db store now userId filt u true (some tok) fresh =
      ((batchUpdate db p.matchedIds userId (updatesToFields u)).1,
       clearPending store tok,
       .updated (batchUpdate db p.matchedIds userId (updatesToFields u)).2)
    ∧ executeBatchDeleteItems db store now userId filt true (some tok) fresh =
      ((batchDelete db p.matchedIds userId).1, clearPending store tok,
       .deleted (batchDelete db p.matchedIds userId).2)
    ∧ executeManageProjectsMove db store now userId (some pid) tgt true
        (some tok) fresh =
      ((moveItems db pid tgt userId).1, clearPending store tok,
       .moved (moveItems db pid tgt userId).2)
    ∧ executeManageProjectsDelete db store now userId (some pid) true
        (some tok) fresh =
      ((projectDelete db pid userId).1, clearPending store tok,
       .projectDeleted (projectDelete db pid userId).2) := by
  have htr : truthyS (some tok) = true := by simp [truthyS, htok]
  have hgp : getPending store tok now = some p := by
    simp [getPending, hlook, hexp]
  have hpn : truthyN (some pid) = true := by simp [truthyN, hpid]
  refine ⟨?_, ?_, ?_, ?_⟩
  · simp [executeBatchUpdateItems, hu, htr, hgp, huser]
  · simp [executeBatchDeleteItems, htr, hgp, huser]
  · simp [executeManageProjectsMove, hpn, htr, hgp, huser]
  · simp [executeManageProjectsDelete, hpn, htr, hgp, huser]

def c4Proj : Project := { id := 1, userId := 9, name := "src" }

def c4ItemA : Item :=
  { id := 1, userId := 9, type := "task", projectId := some 1,
    createdAt := ⟨2025, 1, 1, 0⟩ }

def c4ItemB : Item :=
  { id := 2, userId := 9, type := "task", projectId := some 1,
    createdAt := ⟨2025, 1, 2, 0⟩ }

/-- Store state at preview time: only item A exists. -/
def c4DB0 : DB := { items := [c4ItemA], projects := [c4Proj], nextItemId := 2 }

/-- Store state at execution time: item B joined project 1 meanwhile. -/
def c4DB1 : DB :=
  { items := [c4ItemA, c4ItemB], projects := [c4Proj], nextItemId := 3 }

/-- C4 (counterexample).  `move_items` through two-phase confirmation: the
preview stores `matched_ids = []`, and the valid-token execution moves the
project's **current** members — including item 2, created after the
preview — so phase B does not apply the stored matched id set and does
re-resolve against the store's current state. -/
theorem c4_counterexample :
    (executeManageProjectsMove c4DB0 [] 0 9 (some 1) none false none
        "mov_T").2.2 = .preview "move_items" 1 "mov_T"
    ∧ ((executeManageProjectsMove c4DB0 [] 0 9 (some 1) none false none
        "mov_T").2.1.lookup "mov_T").map PendingOperation.matchedIds =
        some []
    ∧ (executeManageProjectsMove c4DB1
        (executeManageProjectsMove c4DB0 [] 0 9 (some 1) none false none
          "mov_T").2.1 1 9 (some 1) none true (some "mov_T") "x").2.2 =
        .moved 2
    ∧ (itemGet (executeManageProjectsMove c4DB1
        (executeManageProjectsMove c4DB0 [] 0 9 (some 1) none false none
          "mov_T").2.1 1 9 (some 1) none true (some "mov_T") "x").1 2 9).map
        Item.projectId = some none := by decide

def c5Pending : PendingOperation :=
  { token := "del_T", action := "delete", userId := 9, filter := {},
    matchedIds := [1], createdAt := 0 }

/-- C4 (witness for the amended theorem), instantiated at a one-entry
store. -/
theorem c4_phaseB_witness :
    executeBatchUpdateItems c4DB1 [("del_T", c5Pending)] 1 9 {}
        { status := some "done" } true (some "del_T") "f" =
      ((batchUpdate c4DB1 c5Pending.matchedIds 9
          (updatesToFields { status := some "done" })).1,
       clearPending [("del_T", c5Pending)] "del_T",
       .updated (batchUpdate c4DB1 c5Pending.matchedIds 9
          (updatesToFields { status := some "done" })).2)
    ∧ executeBatchDeleteItems c4DB1 [("del_T", c5Pending)] 1 9 {} true
        (some "del_T") "f" =
      ((batchDelete c4DB1 c5Pending.matchedIds 9).1,
       clearPending [("del_T", c5Pending)] "del_T",
       .deleted (batchDelete c4DB1 c5Pending.matchedIds 9).2)
    ∧ executeManageProjectsMove c4DB1 [("del_T", c5Pending)] 1 9 (some 1)
        none true (some "del_T") "f" =
      ((moveItems c4DB1 1 none 9).1,
       clearPending [("del_T", c5Pending)] "del_T",
       .moved (moveItems c4DB1 1 none 9).2)
    ∧ executeManageProjectsDelete c4DB1 [("del_T", c5Pending)] 1 9 (some 1)
        true (some "del_T") "f" =
      ((projectDelete c4DB1 1 9).1,
       clearPending [("del_T", c5Pending)] "del_T",
       .projectDeleted (projectDelete c4DB1 1 9).2) :=
  c4_phaseB_applies_stored_ids_only_for_batch_ops c4DB1
    [("del_T", c5Pending)] 1 9 {} { status := some "done" } "del_T"
    c5Pending "f" 1 none (by decide) (by decide) (by decide) (by decide)
    (by decide) (by decide)

/-- C5 (confirmed).  A valid token executes once: the successful phase-B
batch delete applies the stored ids and removes the token from the store;
a second phase-B attempt with the same token (at any later time, through
any of the four confirming executors) is rejected with the
expired-or-invalid error and leaves both the item store and the
confirmation store unchanged. -/
theorem c5_token_single_use
    (db : DB) (store : ConfirmStore) (now now2 : Int) (userId : Nat)
    (tok : String) (p : PendingOperation) (filt : FilterDict)
    (fresh1 fresh2 : String)
    (htok : tok ≠ "")
    (hlook : store.lookup tok = some p)
    (hexp : p.isExpired now = false)
    (huser : p.userId = userId) :
    (executeBatchDeleteItems db store now userId filt true (some tok)
        fresh1).2.2 = .deleted (batchDelete db p.matchedIds userId).2
    ∧ (executeBatchDeleteItems db store now userId filt true (some tok)
        fresh1).1 = (batchDelete db p.matchedIds userId).1
    ∧ ((executeBatchDeleteItems db store now userId filt true (some tok)
        fresh1).2.1).lookup tok = none
    ∧ (executeBatchDeleteItems (batchDelete db p.matchedIds userId).1
        (clearPending store tok) now2 userId filt true (some tok) fresh2) =
      ((batchDelete db p.matchedIds userId).1, clearPending store tok,
       .error "Confirmation token expired or invalid")
    ∧ (executeBatchUpdateItems (batchDelete db p.matchedIds userId).1
        (clearPending store tok) now2 userId filt { status := some "x" }
        true (some tok) fresh2) =
      ((batchDelete db p.matchedIds userId).1, clearPending store tok,
       .error "Confirmation token expired or invalid")
    ∧ (executeManageProjectsMove (batchDelete db p.matchedIds userId).1
        (clearPending store tok) now2 userId (some 1) none true (some tok)
        fresh2) =
      ((batchDelete db p.matchedIds userId).1, clearPending store tok,
       .error "Confirmation token expired or invalid")
    ∧ (executeManageProjectsDelete (batchDelete db p.matchedIds userId).1
        (clearPending store tok) now2 userId (some 1) true (some tok)
        fresh2) =
      ((batchDelete db p.matchedIds userId).1, clearPending store tok,
       .error "Confirmation token expired or invalid") := by
  have htr : truthyS (some tok) = true := by simp [truthyS, htok]
  have hgp : getPending store tok now = some p := by
    simp [getPending, hlook, hexp]
  have hgone := getPending_clearPending store tok now2
  refine ⟨?_, ?_, ?_, ?_, ?_, ?_, ?_⟩
  · simp [executeBatchDeleteItems, htr, hgp, huser]
  · simp [executeBatchDeleteItems, htr, hgp, huser]
  · simp [executeBatchDeleteItems, htr, hgp, huser, lookup_clearPending]
  · simp [executeBatchDeleteItems, htr, hgone]
  · simp [executeBatchUpdateItems, Updates.isEmpty, htr, hgone]
  · simp [executeManageProjectsMove, truthyN, htr, hgone]
  · simp [executeManageProjectsDelete, truthyN, htr, hgone]

def c5DB : DB :=
  { items := [{ id := 1, userId := 9, type := "task",
                createdAt := ⟨2025, 1, 1, 0⟩ }], nextItemId := 2 }

/-- C5 (witness), instantiated at a one-item store with one pending batch
delete. -/
theorem c5_token_single_use_witness :
    (executeBatchDeleteItems c5DB [("del_T", c5Pending)] 1 9 {} true
        (some "del_T") "f1").2.2 =
      .deleted (batchDelete c5DB c5Pending.matchedIds 9).2
    ∧ (executeBatchDeleteItems c5DB [("del_T", c5Pending)] 1 9 {} true
        (some "del_T") "f1").1 = (batchDelete c5DB c5Pending.matchedIds 9).1
    ∧ ((executeBatchDeleteItems c5DB [("del_T", c5Pending)] 1 9 {} true
        (some "del_T") "f1").2.1).lookup "del_T" = none
    ∧ (executeBatchDeleteItems (batchDelete c5DB c5Pending.matchedIds 9).1
        (clearPending [("del_T", c5Pending)] "del_T") 2 9 {} true
        (some "del_T") "f2") =
      ((batchDelete c5DB c5Pending.matchedIds 9).1,
       clearPending [("del_T", c5Pending)] "del_T",
       .error "Confirmation token expired or invalid")
    ∧ (executeBatchUpdateItems (batchDelete c5DB c5Pending.matchedIds 9).1
        (clearPending [("del_T", c5Pending)] "del_T") 2 9 {}
        { status := some "x" } true (some "del_T") "f2") =
      ((batchDelete c5DB c5Pending.matchedIds 9).1,
       clearPending [("del_T", c5Pending)] "del_T",
       .error "Confirmation token expired or invalid")
    ∧ (executeManageProjectsMove (batchDelete c5DB c5Pending.matchedIds 9).1
        (clearPending [("del_T", c5Pending)] "del_T") 2 9 (some 1) none true
        (some "del_T") "f2") =
      ((batchDelete c5DB c5Pending.matchedIds 9).1,
       clearPending [("del_T", c5Pending)] "del_T",
       .error "Confirmation token expired or invalid")
    ∧ (executeManageProjectsDelete (batchDelete c5DB c5Pending.matchedIds 9).1
        (clearPending [("del_T", c5Pending)] "del_T") 2 9 (some 1) true
        (some "del_T") "f2") =
      ((batchDelete c5DB c5Pending.matchedIds 9).1,
       clearPending [("del_T", c5Pending)] "del_T",
       .error "Confirmation token expired or invalid") :=
  c5_token_single_use c5DB [("del_T", c5Pending)] 1 2 9 "del_T" c5Pending
    {} "f1" "f2" (by decide) (by decide) (by decide) (by decide)

/-! ### C6 / C10 — reminder sentinel -/

lemma sentinel_never_selected (it : RItem) (now now' : Int)
    (hord : now ≤ now') : dueSelect (markReminded it now) now' = false := by
  simp only [dueSelect, markReminded]
  have : ¬ (now' - 5 ≤ now - 1440) := by omega
  simp [this]

/-- C6 (confirmed).  An item selected by the tick at `now` is written back
with the sentinel `remind_at = now − 1 day`, and no tick at any time
`now' ≥ now` selects the marked item again: the sentinel lies strictly
before the later window `[now' − 5 min, now' + 1 min]`, and because the
sentinel is non-null the `due_at` fallback disjunct cannot re-select it
either. -/
theorem c6_reminded_at_most_once
    (db : List RItem) (it : RItem) (now now' : Int)
    (hmem : it ∈ db) (hsel : dueSelect it now = true) (hord : now ≤ now') :
    markReminded it now ∈ reminderTickItems db now
    ∧ (markReminded it now).remindAt = some (now - 1440)
    ∧ dueSelect (markReminded it now) now' = false := by
  refine ⟨?_, rfl, sentinel_never_selected it now now' hord⟩
  have : markReminded it now =
      (fun j => if dueSelect j now then markReminded j now else j) it := by
    simp [hsel]
  rw [this]
  exact List.mem_map_of_mem _ hmem

def c6Item : RItem :=
  { id := 3, userId := 9, status := "active", remindAt := some 1000,
    dueAt := some 1000 }

/-- C6 (witness): an active item due at `now = 1000` is marked with
sentinel `1000 − 1440` and is not selected by the next tick at `1060`. -/
theorem c6_reminded_at_most_once_witness :
    markReminded c6Item 1000 ∈ reminderTickItems [c6Item] 1000
    ∧ (markReminded c6Item 1000).remindAt = some (1000 - 1440)
    ∧ dueSelect (markReminded c6Item 1000) 1060 = false :=
  c6_reminded_at_most_once [c6Item] c6Item 1000 1060 (by decide) (by decide)
    (by decide)

/-- C10 (confirmed).  `_send_reminder` swallows every exception from the
transport send, and `_check_reminders` then marks the item regardless: the
items written by a tick do not depend on the send outcomes at all, a
selected item whose send failed still receives the sentinel
`remind_at = now − 1 day`, its failure is recorded only in the send log,
and no tick at `now' ≥ now` selects it again — the failed reminder is
permanently disarmed for that due time. -/
theorem c10_failed_send_still_disarms
    (db : List RItem) (it : RItem) (now now' : Int) (e : String)
    (sendOutcome : RItem → Except String Unit)
    (hmem : it ∈ db) (hsel : dueSelect it now = true) (hord : now ≤ now')
    (hfail : sendOutcome it = .error e) :
    (checkReminders db now sendOutcome).1 =
      (checkReminders db now (fun _ => .ok ())).1
    ∧ markReminded it now ∈ (checkReminders db now sendOutcome).1
    ∧ (it.id, false) ∈ (checkReminders db now sendOutcome).2
    ∧ dueSelect (markReminded it now) now' = false := by
  refine ⟨rfl, ?_, ?_, sentinel_never_selected it now now' hord⟩
  · have : markReminded it now =
        (fun j => if dueSelect j now then markReminded j now else j) it := by
      simp [hsel]
    rw [this]
    exact List.mem_map_of_mem _ hmem
  · have hmemf : it ∈ db.filter (fun j => dueSelect j now) :=
      List.mem_filter.mpr ⟨hmem, hsel⟩
    have : (it.id, false) =
        (fun j => (j.id, sendOk (sendOutcome j))) it := by
      simp [hfail, sendOk]
    rw [this]
    exact List.mem_map_of_mem _ hmemf

/-- C10 (witness): item due at `now = 1000` whose send raises is still
marked and not re-selected at `1060`. -/
theorem c10_failed_send_still_disarms_witness :
    (checkReminders [c6Item] 1000 (fun _ => .error "network")).1 =
      (checkReminders [c6Item] 1000 (fun _ => .ok ())).1
    ∧ markReminded c6Item 1000 ∈
        (checkReminders [c6Item] 1000 (fun _ => .error "network")).1
    ∧ (c6Item.id, false) ∈
        (checkReminders [c6Item] 1000 (fun _ => .error "network")).2
    ∧ dueSelect (markReminded c6Item 1000) 1060 = false :=
  c10_failed_send_still_disarms [c6Item] c6Item 1000 1060 "network"
    (fun _ => .error "network") (by decide) (by decide) (by decide) rfl

/-! ### C7 — attachment triple on agent-persisted items -/

/-- C7 (divergence).  Whenever the inbound message carried an attachment
(`metadata` truthy), **every** item of the batch fails to persist: the
keyword dict contains `attachment_filename`, which is not an attribute of
the declarative `Item` class (only the raw table column exists, added by
`init_db`), so `Item(**kwargs)` raises `TypeError` and `_persist_items`
catches and skips the item.  Without metadata the same batch persists in
full, so the failure is precisely the attachment path. -/
theorem c7_attachment_items_never_persisted
    (userId : Nat) (originalText source : String)
    (itemsData : List AgentItemData) (meta : AttachMeta) :
    persistItems userId originalText source itemsData (some meta) = []
    ∧ (persistItems userId originalText source itemsData none).length =
        itemsData.length
    ∧ itemMappedAttrs.contains "attachment_filename" = false
    ∧ pyItemNewOk (persistKwargKeys (some meta)) = false
    ∧ pyItemNewOk (persistKwargKeys none) = true := by
  have hbad : pyItemNewOk (persistKwargKeys (some meta)) = false := rfl
  have hok : pyItemNewOk (persistKwargKeys none) = true := rfl
  refine ⟨?_, ?_, by decide, hbad, hok⟩
  · simp [persistItems, hbad]
  · simp [persistItems, hok]

/-! ### C8 — error swallowing in the search paths -/

def c8Row : SRow :=
  { id := 1, title := some "milk note", type := "note", score := 1,
    ftsScore := 1 }

/-- Environment where the hybrid SQL query raises but the FTS query
succeeds with one row. -/
def c8Env : SearchEnv :=
  { emb := some [0], hybridQ := .error "boom", ftsQ := .ok [c8Row] }

/-- C8 (counterexample).  With the hybrid query raising a database error,
`hybrid_search` does not return the empty list: it substitutes the result
of the FTS path and returns its (non-empty) rows. -/
theorem c8_counterexample :
    hybridSearch c8Env "milk" =
      [{ id := 1, title := "milk note", content := none, type := "note",
         score := 1, ftsScore := 1, vectorScore := 0 }]
    ∧ hybridSearch c8Env "milk" ≠ []
    ∧ hybridSearch c8Env "milk" = ftsSearch c8Env := by decide

/-- C8 (amended).  `fts_search`, `ilike_search`, `vector_search` and
`find_similar` swallow a database error into `[]`; `hybrid_search` on a
database error instead falls back to the FTS-only path and returns its
result (which may be non-empty). -/
theorem c8_error_paths
    (env : SearchEnv) (q : String) (emb : List Int) (e1 e2 e3 e4 e5 : String)
    (hq : strBlank q = false) :
    (env.ftsQ = .error e1 → ftsSearch env = [])
    ∧ (env.ilikeQ = .error e2 → ilikeSearch env = [])
    ∧ (env.vectorQ = .error e3 → vectorSearch env = [])
    ∧ (env.findSimQ = .error e4 → findSimilar env = [])
    ∧ (env.emb = some emb → env.hybridQ = .error e5 →
        hybridSearch env q = ftsSearch env) := by
  refine ⟨?_, ?_, ?_, ?_, ?_⟩
  · intro h; simp [ftsSearch, h]
  · intro h; simp [ilikeSearch, h]
  · intro h
    cases hemb : env.emb <;> simp [vectorSearch, hemb, h]
  · intro h; simp [findSimilar, h]
  · intro hemb herr
    simp [hybridSearch, hq, hemb, herr]

/-- Environment where every query raises. -/
def c8ErrEnv : SearchEnv :=
  { emb := some [0], hybridQ := .error "a", ftsQ := .error "b",
    ilikeQ := .error "c", vectorQ := .error "d", findSimQ := .error "e" }

/-- C8 (witness): all five queries raising, non-blank query. -/
theorem c8_error_paths_witness :
    (c8ErrEnv.ftsQ = .error "b" → ftsSearch c8ErrEnv = [])
    ∧ (c8ErrEnv.ilikeQ = .error "c" → ilikeSearch c8ErrEnv = [])
    ∧ (c8ErrEnv.vectorQ = .error "d" → vectorSearch c8ErrEnv = [])
    ∧ (c8ErrEnv.findSimQ = .error "e" → findSimilar c8ErrEnv = [])
    ∧ (c8ErrEnv.emb = some [0] → c8ErrEnv.hybridQ = .error "a" →
        hybridSearch c8ErrEnv "milk" = ftsSearch c8ErrEnv) :=
  c8_error_paths c8ErrEnv "milk" [0] "b" "c" "d" "e" "a" (by decide)

/-! ### C9 — the linking stage -/

def c9SrcItem : Item :=
  { id := 10, userId := 3, type := "note", createdAt := ⟨2025, 1, 1, 0⟩ }

def c9Sugg : LinkSuggestion :=
  { newItemIndex := some 0, existingItemId := some 42,
    reason := some "same topic" }

/-- C9 (divergence).  The validation loop accepts a well-formed suggestion
(index 0 into a one-item batch, truthy `existing_item_id`), yet
`create_links_batch` creates no link for any input whatsoever: the
`reason=` keyword is not an `ItemLink` attribute, the constructor raises
`TypeError`, and the outer handler swallows it into `[]`.  Note also that
the validation loop checks only index range and id truthiness — no
same-user or existence check appears anywhere in the stage. -/
theorem c9_links_never_created
    (createdItems : List Item) (suggestions : List LinkSuggestion) :
    createLinksBatch createdItems suggestions = []
    ∧ suggestionsToLinks [c9SrcItem] [c9Sugg] =
        [{ itemId := 10, relatedItemId := 42, reason := some "same topic",
           linkType := "related" }]
    ∧ pyItemLinkNewOk linkKwargKeys = false := by
  refine ⟨?_, by decide, by decide⟩
  unfold createLinksBatch
  split
  · rfl
  · dsimp only
    by_cases hl : suggestionsToLinks createdItems suggestions = []
    · simp [hl]
    · have hfalse : pyItemLinkNewOk linkKwargKeys = false := by decide
      have hall : (suggestionsToLinks createdItems suggestions).all
          (fun _ => pyItemLinkNewOk linkKwargKeys) = false := by
        cases hcase : suggestionsToLinks createdItems suggestions with
        | nil => exact absurd hcase hl
        | cons a l => simp [hfalse]
      simp [linkCreateBatch, hl, hall]
